import Mathlib

/-!
Shallow embedding of the xrt QSPI flash controller driver
(drivers/fpga/xrt/lib/xleaf/xrt-qspi.c of the xoclv2 tree) and proofs about it.

The driver turns arbitrary-length, arbitrary-offset read/write requests into
sequences of flash command transactions.  The definitions below translate the
C functions into Lean, with machine integers modelled as Nat with explicit
reduction mod 2 ^ 64 where size_t wraparound matters, the flash backing store
modelled as a function from flat byte address to byte value, and the hardware
responses of the transaction engine (FIFO reset outcome, transmit outcome,
RX FIFO fill level, status error bits) modelled as an explicit environment.
-/

namespace XrtQspi

/-- QSPI_PAGE_SIZE: 4KB, the minimum program/erase/RMW granule. -/
def QSPI_PAGE_SIZE : Nat := 4 * 1024

/-- QSPI_LARGE_PAGE_SIZE: 32KB erase page. -/
def QSPI_LARGE_PAGE_SIZE : Nat := 32 * 1024

/-- QSPI_HUGE_PAGE_SIZE: 64KB erase page. -/
def QSPI_HUGE_PAGE_SIZE : Nat := 64 * 1024

/-- QSPI_PAGE_ALIGN(off) = off & ~QSPI_PAGE_MASK.  For a power-of-two page
size this bit operation on a 64-bit value equals clearing the low 12 bits,
i.e. subtracting off % 4096. -/
def QSPI_PAGE_ALIGN (off : Nat) : Nat := off - off % QSPI_PAGE_SIZE

/-- QSPI_PAGE_OFFSET(off) = off & QSPI_PAGE_MASK = off % 4096. -/
def QSPI_PAGE_OFFSET (off : Nat) : Nat := off % QSPI_PAGE_SIZE

/-- MAX_NUM_OF_SLAVES from the source. -/
def MAX_NUM_OF_SLAVES : Int := 2

/-- SLAVE_SELECT_NONE = BIT(MAX_NUM_OF_SLAVES) - 1 = 3: the all-ones
(active-low, in the two slave-select bits) "none selected" register value. -/
def SLAVE_SELECT_NONE : Nat := 3

/-- Unsigned 64-bit (size_t) subtraction a - b as the C code performs it:
the result wraps modulo 2 ^ 64 when b > a. -/
def sub64 (a b : Nat) : Nat := (a + 2 ^ 64 - b % 2 ^ 64) % 2 ^ 64

lemma sub64_of_le (a b : Nat) (hb : b ≤ a) (ha : a < 2 ^ 64) : sub64 a b = a - b := by
  unfold sub64
  omega

/-- struct qspi_flash_addr: the decomposed flat address.  All five fields are
u8 in the source; every value constructed in this development is < 256. -/
structure QspiFlashAddr where
  slave : Nat
  sector : Nat
  addr_lo : Nat
  addr_mid : Nat
  addr_hi : Nat

/-- qspi_offset2faddr: decompose a 64-bit flat offset.  (u8)(addr >> k) is
addr / 2 ^ k % 256 on the 64-bit pattern. -/
def qspi_offset2faddr (addr : Nat) : QspiFlashAddr :=
  { slave := addr / 2 ^ 56 % 256
    sector := addr / 2 ^ 24 % 256
    addr_lo := addr % 256
    addr_mid := addr / 2 ^ 8 % 256
    addr_hi := addr / 2 ^ 16 % 256 }

/-- qspi_faddr2offset: recompose the flat offset.  The source builds the value
with shift-left-8 and bitwise-or steps over u8 fields and finally ors in
slave << 56; oring a freshly shifted value with a byte (and the disjoint
slave byte with the low 32 bits) is addition, which is how it is written
here. -/
def qspi_faddr2offset (faddr : QspiFlashAddr) : Nat :=
  ((faddr.sector * 2 ^ 8 + faddr.addr_hi) * 2 ^ 8 + faddr.addr_mid) * 2 ^ 8
    + faddr.addr_lo + faddr.slave * 2 ^ 56

/-- is_valid_offset: decompose off, zero the slave byte, recompose, and
compare against the flash capacity. -/
def is_valid_offset (flash_size off : Nat) : Prop :=
  qspi_faddr2offset { qspi_offset2faddr off with slave := 0 } < flash_size

instance (flash_size off : Nat) : Decidable (is_valid_offset flash_size off) :=
  Nat.decLt _ _

/-- The validity check only sees the low 32 bits of the offset: the slave
byte is zeroed and bits 32..55 are dropped by the u8 sector field. -/
lemma is_valid_offset_iff (fs off : Nat) : is_valid_offset fs off ↔ off % 2 ^ 32 < fs := by
  unfold is_valid_offset qspi_faddr2offset qspi_offset2faddr
  simp only
  omega

/-- Header length reported by qspi_setup_io_cmd_header: opcode plus three
address bytes, always 4. -/
def qspi_io_cmd_header_len : Nat := 4

/-- The fixed trailing dummy length of a FIFO read (read_dummy_len in
qspi_fifo_rd). -/
def read_dummy_len : Nat := 4

/-- The empirical 128-byte single-write ceiling (write_max_len in
qspi_fifo_wr). -/
def write_max_len : Nat := 128

/-- Payload and total transaction length computed by qspi_fifo_rd for one
FIFO read: payload = min(*cnt, fifo_depth - header_len - read_dummy_len) in
size_t arithmetic, total = payload + header_len + read_dummy_len. -/
def qspi_fifo_rd_lens (fifo_depth cnt : Nat) : Nat × Nat :=
  let header_len := qspi_io_cmd_header_len
  let payload_len := min cnt (sub64 fifo_depth (header_len + read_dummy_len))
  (payload_len, payload_len + header_len + read_dummy_len)

/-- Payload and total transaction length computed by qspi_fifo_wr for one
FIFO write: payload = min(min(*cnt, fifo_depth - header_len), write_max_len)
in size_t arithmetic, total = payload + header_len. -/
def qspi_fifo_wr_lens (fifo_depth cnt : Nat) : Nat × Nat :=
  let header_len := qspi_io_cmd_header_len
  let payload_len := min (min cnt (sub64 fifo_depth header_len)) write_max_len
  (payload_len, payload_len + header_len)

/-- qspi_get_page_io_size: pick the largest of 64KB/32KB/4KB such that off is
aligned to it and the remaining size covers it; 0 when none qualifies
(IS_ALIGNED(x, a) is x % a = 0 for the power-of-two page sizes). -/
def qspi_get_page_io_size (off sz : Nat) : Nat :=
  if off % QSPI_HUGE_PAGE_SIZE = 0 ∧ QSPI_HUGE_PAGE_SIZE ≤ sz then QSPI_HUGE_PAGE_SIZE
  else if off % QSPI_LARGE_PAGE_SIZE = 0 ∧ QSPI_LARGE_PAGE_SIZE ≤ sz then QSPI_LARGE_PAGE_SIZE
  else if off % QSPI_PAGE_SIZE = 0 ∧ QSPI_PAGE_SIZE ≤ sz then QSPI_PAGE_SIZE
  else 0

/-- qspi_erase_cmd: map the erase unit to its opcode by the integer division
pagesz / 1024 (the source switches on pagesz / onek; its WARN_ON calls only
log, they do not stop execution, and the default case leaves cmd = 0). -/
def qspi_erase_cmd (pagesz : Nat) : Nat :=
  match pagesz / 1024 with
  | 4 => 0x20
  | 32 => 0x52
  | 64 => 0xD8
  | _ => 0

/-- Command-level model of qspi_page_erase: with the device reporting ready
and the sector already current, the function unconditionally issues a
write-enable transaction (opcode 0x06) followed by the erase transaction
whose opcode qspi_erase_cmd picked; there is no granule validation and no
early-return path for an unsupported pagesz.  Result: (return value, list of
transaction opcodes issued). -/
def qspi_page_erase_cmds (_off pagesz : Nat) : Int × List Nat :=
  (0, [0x06, qspi_erase_cmd pagesz])

/-- A mock flash backing store: byte value at each flat byte address. -/
abbrev Flash := Nat → Nat

/-- Erasing a flash range sets every byte in it to 0xff. -/
def eraseRange (f : Flash) (off sz : Nat) : Flash :=
  fun a => if off ≤ a ∧ a < off + sz then 0xff else f a

/-- qspi_buf_rdwr with write = false at the backing-store level: copy len
flash bytes starting at flash offset off into the buffer at position dstoff
(the C call site passes the advanced pointer kbuf + dstoff; the chunk loop
over qspi_fifo_rd composes to this whole-range copy on a store where every
chunk read succeeds). -/
def bufRead (f : Flash) (buf : Nat → Nat) (dstoff off len : Nat) : Nat → Nat :=
  fun p => if dstoff ≤ p ∧ p < dstoff + len then f (off + (p - dstoff)) else buf p

/-- qspi_buf_rdwr with write = true at the backing-store level: copy len
buffer bytes starting at buffer position srcoff onto the flash at offset off
(the chunk loop over qspi_fifo_wr composes to this whole-range copy on a
store where every chunk write succeeds). -/
def bufWrite (f : Flash) (buf : Nat → Nat) (srcoff off len : Nat) : Flash :=
  fun a => if off ≤ a ∧ a < off + len then buf (srcoff + (a - off)) else f a

/-- copy_from_user into the scratch buffer at position dstoff. -/
def copyFromUser (buf : Nat → Nat) (dstoff : Nat) (ubuf : Nat → Nat) (len : Nat) : Nat → Nat :=
  fun p => if dstoff ≤ p ∧ p < dstoff + len then ubuf (p - dstoff) else buf p

/-- qspi_page_rmw over the mock backing store, with all device IO succeeding:
align the window, read the front bytes (if any) and the back bytes (if any)
from the live flash into the scratch page, copy the caller bytes into the
middle, erase the whole 4KB window, write the reconstructed page back, and
report mid = min(*cnt, QSPI_PAGE_SIZE - front) as the bytes consumed.
Returns (flash after the operation, consumed count). -/
def qspi_page_rmw (f : Flash) (ubuf kbuf : Nat → Nat) (off cnt : Nat) : Flash × Nat :=
  let thisoff := QSPI_PAGE_ALIGN off
  let front := QSPI_PAGE_OFFSET off
  let mid := min cnt (QSPI_PAGE_SIZE - front)
  let last := QSPI_PAGE_SIZE - front - mid
  let k1 := if front ≠ 0 then bufRead f kbuf 0 thisoff front else kbuf
  let k2 := copyFromUser k1 front ubuf mid
  let k3 := if last ≠ 0 then bufRead f k2 (front + mid) (thisoff + front + mid) last else k2
  let f1 := eraseRange f (QSPI_PAGE_ALIGN off) QSPI_PAGE_SIZE
  (bufWrite f1 k3 0 (QSPI_PAGE_ALIGN off) QSPI_PAGE_SIZE, mid)

/-- qspi_page_wr over the mock backing store, with all device IO succeeding:
full-page program.  When qspi_get_page_io_size finds no qualifying page size
it returns -EOPNOTSUPP (-95) with the flash and the in/out count untouched;
otherwise it copies thislen caller bytes to scratch, erases [off, off +
thislen) and writes the scratch back.  Returns (ret, flash, consumed). -/
def qspi_page_wr (f : Flash) (ubuf kbuf : Nat → Nat) (off cnt : Nat) : Int × Flash × Nat :=
  let thislen := qspi_get_page_io_size off cnt
  if thislen = 0 then (-95, f, cnt)
  else
    let k := copyFromUser kbuf 0 ubuf thislen
    let f1 := eraseRange f off thislen
    (0, bufWrite f1 k 0 off thislen, thislen)

/-- One iteration body of the qspi_write loop over the mock backing store:
try qspi_page_wr, and on its -EOPNOTSUPP control signal fall back to
qspi_page_rmw (which in the pure store model always succeeds). -/
def qspi_write_step (f : Flash) (ubuf kbuf : Nat → Nat) (off cnt : Nat) : Int × Flash × Nat :=
  let r := qspi_page_wr f ubuf kbuf off cnt
  if r.1 = -95 then
    let s := qspi_page_rmw f ubuf kbuf off cnt
    (0, s.1, s.2)
  else r

/-- The chunk loop of qspi_write.  step thisoff thislen models one combined
qspi_page_wr / qspi_page_rmw attempt at thisoff with thislen = n - cnt
remaining bytes, returning (ret, bytes consumed); the loop advances cnt by
the consumed bytes while ret = 0 and cnt < n, and stops on the first failing
chunk.  fuel bounds the recursion; every run examined below terminates within
its fuel. -/
def qspi_write_go (step : Nat → Nat → Int × Nat) (off n : Nat) : Nat → Nat → Int × Nat
  | 0, cnt => (0, cnt)
  | fuel + 1, cnt =>
    if cnt < n then
      let r := step (off + cnt) (n - cnt)
      if r.1 = 0 then qspi_write_go step off n fuel (cnt + r.2) else (r.1, cnt)
    else (0, cnt)

/-- qspi_write, the stream-facade write entry (its ssize_t result), with the
per-chunk outcome abstracted by step: reject n = 0 or an invalid offset with
-ENOSPC (-28); clamp n to flash_size - *off in size_t arithmetic; run the
chunk loop; if the loop failed return only its error code, else return the
clamped n. -/
def qspi_write (step : Nat → Nat → Int × Nat) (flash_size off n : Nat) : Int :=
  if n = 0 ∨ ¬ is_valid_offset flash_size off then -28
  else
    let m := min n (sub64 flash_size off)
    let r := qspi_write_go step off m m 0
    if r.1 ≠ 0 then r.1 else (m : Int)

/-- qspi_read, the stream-facade read entry (its ssize_t result), modelled
with the underlying page reads succeeding: return 0 (not an error) for n = 0
or an invalid offset, else clamp n to flash_size - *off in size_t arithmetic
and return the clamped count. -/
def qspi_read (flash_size off n : Nat) : Int :=
  if n = 0 ∨ ¬ is_valid_offset flash_size off then 0
  else ((min n (sub64 flash_size off) : Nat) : Int)

/-- Hardware responses of one transaction, abstracting what the device does:
the result of the qspi_reset_fifo step, the result of the qspi_tx step, the
number of bytes sitting in the RX FIFO after the burst, and whether the
status error bits are set when qspi_rx checks them. -/
structure TransEnv where
  reset_ret : Int
  tx_ret : Int
  rx_fifo_len : Nat
  rx_err : Bool

/-- qspi_rx: pull exactly len bytes.  Finding the RX FIFO empty before all
len bytes are pulled is -EINVAL; bytes left over after the pull is -EINVAL;
error bits set afterwards is -EINVAL; the destination buffer (or NULL for
drain mode) does not affect the result. -/
def qspi_rx (env : TransEnv) (len : Nat) : Int :=
  if env.rx_fifo_len < len then -22
  else if len < env.rx_fifo_len then -22
  else if env.rx_err then -22
  else 0

/-- The u32 value qspi_activate_slave writes to the slave-select register:
SLAVE_SELECT_NONE for SLAVE_NONE (-1), otherwise ~BIT(index) truncated to 32
bits. -/
def qspi_activate_slave_val (index : Int) : Nat :=
  if index = -1 then SLAVE_SELECT_NONE else 2 ^ 32 - 1 - 2 ^ index.toNat % 2 ^ 32

/-- qspi_transaction: reset FIFOs, validate the current slave index, activate
the slave, transmit, then receive into the buffer (need_output) or drain with
the result discarded, and deactivate.  State threaded through is the
slave-select register value; result is (return value, final register value).
The reset-failure and bad-index paths return before any slave write; the
transmit-failure path returns with the slave still activated. -/
def qspi_transaction (env : TransEnv) (curr_slave : Int) (len : Nat) (need_output : Bool)
    (slave_reg : Nat) : Int × Nat :=
  if env.reset_ret ≠ 0 then (env.reset_ret, slave_reg)
  else if MAX_NUM_OF_SLAVES ≤ curr_slave then (-22, slave_reg)
  else
    let s1 := qspi_activate_slave_val curr_slave
    if env.tx_ret ≠ 0 then (env.tx_ret, s1)
    else
      let ret := if need_output then qspi_rx env len else 0
      (ret, SLAVE_SELECT_NONE)

/-- C5: for every valid 64-bit flat offset within the representable range
(slave in the top byte, sector in bits 24-31, in-sector byte in the low 24
bits, i.e. slave * 2 ^ 56 + low with low < 2 ^ 32), decomposing with
qspi_offset2faddr and recomposing with qspi_faddr2offset yields the original
value, and the slave component of the decomposition is exactly the slave
byte, independent of the sector/offset arithmetic. -/
theorem C5_addr_round_trip (slave low : Nat) (hs : slave < 256) (hl : low < 2 ^ 32) :
    qspi_faddr2offset (qspi_offset2faddr (slave * 2 ^ 56 + low)) = slave * 2 ^ 56 + low ∧
    (qspi_offset2faddr (slave * 2 ^ 56 + low)).slave = slave := by
  unfold qspi_faddr2offset qspi_offset2faddr
  constructor <;> simp only <;> omega

/-- Witness for C5 at slave = 2, low = 0x01020304. -/
theorem C5_addr_round_trip_witness :
    qspi_faddr2offset (qspi_offset2faddr (2 * 2 ^ 56 + 16909060)) = 2 * 2 ^ 56 + 16909060 ∧
    (qspi_offset2faddr (2 * 2 ^ 56 + 16909060)).slave = 2 :=
  C5_addr_round_trip 2 16909060 (by decide) (by decide)

/-- C6: for a discovered FIFO depth of at least header_len + read_dummy_len
bytes (a size_t below 2 ^ 64), the single-FIFO read issues exactly
header_len + 4 dummy bytes + payload with payload = min(requested,
fifo_depth - header_len - 4), the single-FIFO write issues header_len +
payload with payload = min(requested, fifo_depth - header_len, 128), and
neither total transaction length exceeds the FIFO depth, so the scratch
io_buf (sized to the depth) is never overrun. -/
theorem C6_fifo_depth_bound (d cnt : Nat) (h8 : 8 ≤ d) (hd : d < 2 ^ 64) :
    (qspi_fifo_rd_lens d cnt).1 = min cnt (d - 8) ∧
    (qspi_fifo_rd_lens d cnt).2 = (qspi_fifo_rd_lens d cnt).1 + qspi_io_cmd_header_len + 4 ∧
    (qspi_fifo_rd_lens d cnt).2 ≤ d ∧
    (qspi_fifo_wr_lens d cnt).1 = min cnt (min (d - 4) 128) ∧
    (qspi_fifo_wr_lens d cnt).2 = (qspi_fifo_wr_lens d cnt).1 + qspi_io_cmd_header_len ∧
    (qspi_fifo_wr_lens d cnt).2 ≤ d := by
  unfold qspi_fifo_rd_lens qspi_fifo_wr_lens qspi_io_cmd_header_len read_dummy_len write_max_len
  dsimp only
  rw [sub64_of_le d 8 (by omega) hd, sub64_of_le d 4 (by omega) hd]
  omega

/-- Witness for C6 at depth 256 and an oversized request of 1000 bytes. -/
theorem C6_fifo_depth_bound_witness :
    (qspi_fifo_rd_lens 256 1000).2 ≤ 256 ∧ (qspi_fifo_wr_lens 256 1000).2 ≤ 256 :=
  ⟨(C6_fifo_depth_bound 256 1000 (by decide) (by decide)).2.2.1,
   (C6_fifo_depth_bound 256 1000 (by decide) (by decide)).2.2.2.2.2⟩

/-- C3 (code bug evaluation): erase(offset = 0, page_size = 5000) is NOT
rejected.  qspi_erase_cmd computes 5000 / 1024 = 4 by integer division and
selects the 4KB-subsector-erase opcode 0x20, and qspi_page_erase proceeds to
issue the write-enable transaction and the erase transaction with that
opcode, returning success — touching hardware state instead of rejecting the
unsupported granule. -/
theorem C3_erase_granule_not_rejected :
    qspi_erase_cmd 5000 = 0x20 ∧
    qspi_page_erase_cmds 0 5000 = (0, [0x06, 0x20]) ∧
    (qspi_page_erase_cmds 0 5000).2 ≠ [] := by
  decide

/-- C4: the full-page path selects 64KB when off is 64KB-aligned and the
remaining length covers 64KB, else 32KB under the corresponding conditions,
else 4KB, largest first; no page size qualifies exactly when the 4KB
condition fails, in which case qspi_page_wr returns the distinct
-EOPNOTSUPP signal with the flash untouched, the write loop body falls back
to qspi_page_rmw, and (for a nonempty request) the fallback consumes a
positive number of bytes — a write never fails merely for lack of
alignment. -/
theorem C4_page_size_fallback (off sz : Nat) (f : Flash) (ubuf kbuf : Nat → Nat) :
    (off % 65536 = 0 ∧ 65536 ≤ sz → qspi_get_page_io_size off sz = 65536) ∧
    (¬(off % 65536 = 0 ∧ 65536 ≤ sz) → off % 32768 = 0 ∧ 32768 ≤ sz →
      qspi_get_page_io_size off sz = 32768) ∧
    (¬(off % 65536 = 0 ∧ 65536 ≤ sz) → ¬(off % 32768 = 0 ∧ 32768 ≤ sz) →
      off % 4096 = 0 ∧ 4096 ≤ sz → qspi_get_page_io_size off sz = 4096) ∧
    (qspi_get_page_io_size off sz = 0 ↔ ¬(off % 4096 = 0 ∧ 4096 ≤ sz)) ∧
    (qspi_get_page_io_size off sz = 0 →
      qspi_page_wr f ubuf kbuf off sz = (-95, f, sz) ∧
      qspi_write_step f ubuf kbuf off sz
        = (0, (qspi_page_rmw f ubuf kbuf off sz).1, (qspi_page_rmw f ubuf kbuf off sz).2) ∧
      (1 ≤ sz → 1 ≤ (qspi_page_rmw f ubuf kbuf off sz).2)) := by
  refine ⟨?_, ?_, ?_, ?_, ?_⟩
  case _ =>
    intro h
    unfold qspi_get_page_io_size QSPI_HUGE_PAGE_SIZE
    simp only [if_pos (by omega : off % (64 * 1024) = 0 ∧ 64 * 1024 ≤ sz)]
  case _ =>
    intro h64 h32
    unfold qspi_get_page_io_size QSPI_HUGE_PAGE_SIZE QSPI_LARGE_PAGE_SIZE
    rw [if_neg (by omega), if_pos (by omega)]
  case _ =>
    intro h64 h32 h4
    unfold qspi_get_page_io_size QSPI_HUGE_PAGE_SIZE QSPI_LARGE_PAGE_SIZE QSPI_PAGE_SIZE
    rw [if_neg (by omega), if_neg (by omega), if_pos (by omega)]
  case _ =>
    unfold qspi_get_page_io_size QSPI_HUGE_PAGE_SIZE QSPI_LARGE_PAGE_SIZE QSPI_PAGE_SIZE
    split_ifs with h1 h2 h3
    case _ => exact ⟨fun h => h.elim, fun h => (h ⟨by omega, by omega⟩).elim⟩
    case _ => exact ⟨fun h => h.elim, fun h => (h ⟨by omega, by omega⟩).elim⟩
    case _ => exact ⟨fun h => h.elim, fun h => (h ⟨by omega, by omega⟩).elim⟩
    case _ => exact ⟨fun _ => h3, fun _ => by trivial⟩
  case _ =>
    intro h0
    have hwr : qspi_page_wr f ubuf kbuf off sz = (-95, f, sz) := by
      unfold qspi_page_wr
      rw [h0]
      simp
    refine ⟨hwr, ?_, ?_⟩
    case _ =>
      unfold qspi_write_step
      rw [hwr]
      simp
    case _ =>
      intro hsz
      unfold qspi_page_rmw QSPI_PAGE_OFFSET QSPI_PAGE_SIZE
      dsimp only
      omega

/-- Witness for C4 at off = 100, sz = 50 (no page size qualifies: the
fallback body runs qspi_page_rmw and consumes a positive count). -/
theorem C4_page_size_fallback_witness :
    qspi_page_wr (fun _ => 0) (fun i => i) (fun _ => 0) 100 50 = (-95, (fun _ => 0), 50) ∧
    qspi_write_step (fun _ => 0) (fun i => i) (fun _ => 0) 100 50
      = (0, (qspi_page_rmw (fun _ => 0) (fun i => i) (fun _ => 0) 100 50).1,
         (qspi_page_rmw (fun _ => 0) (fun i => i) (fun _ => 0) 100 50).2) ∧
    1 ≤ (qspi_page_rmw (fun _ => 0) (fun i => i) (fun _ => 0) 100 50).2 := by
  have h := (C4_page_size_fallback 100 50 (fun _ => 0) (fun i => i) (fun _ => 0)).2.2.2.2
    (by decide)
  exact ⟨h.1, h.2.1, h.2.2 (by decide)⟩

/-- C1: for a read-modify-write of cnt < 4KB at a non-4KB-aligned offset
over the mock flash backing store, every byte of the containing 4KB-aligned
window outside [off, off + cnt) is bit-for-bit unchanged, every byte written
inside the range equals the data of the caller, and the reported consumed
count is exactly min(cnt, 4KB - offset-within-page). -/
theorem C1_rmw_preservation (f : Flash) (ubuf kbuf : Nat → Nat) (off cnt : Nat)
    (hual : off % QSPI_PAGE_SIZE ≠ 0) (hlen : cnt < QSPI_PAGE_SIZE) :
    (qspi_page_rmw f ubuf kbuf off cnt).2 = min cnt (QSPI_PAGE_SIZE - off % QSPI_PAGE_SIZE) ∧
    (∀ a, QSPI_PAGE_ALIGN off ≤ a → a < QSPI_PAGE_ALIGN off + QSPI_PAGE_SIZE →
        a < off ∨ off + cnt ≤ a → (qspi_page_rmw f ubuf kbuf off cnt).1 a = f a) ∧
    (∀ i, i < (qspi_page_rmw f ubuf kbuf off cnt).2 →
        (qspi_page_rmw f ubuf kbuf off cnt).1 (off + i) = ubuf i) := by
  unfold QSPI_PAGE_SIZE at hual hlen
  refine ⟨rfl, ?_, ?_⟩
  · intro a h1 h2 h3
    unfold QSPI_PAGE_ALIGN QSPI_PAGE_SIZE at h1 h2
    unfold qspi_page_rmw bufWrite bufRead copyFromUser eraseRange
      QSPI_PAGE_ALIGN QSPI_PAGE_OFFSET QSPI_PAGE_SIZE
    dsimp only
    simp only [ite_apply]
    split_ifs <;> first | omega | (congr 1; omega)
  · intro i hi
    have hi2 : i < min cnt (4 * 1024 - off % (4 * 1024)) := hi
    clear hi
    unfold qspi_page_rmw bufWrite bufRead copyFromUser eraseRange
      QSPI_PAGE_ALIGN QSPI_PAGE_OFFSET QSPI_PAGE_SIZE
    dsimp only
    simp only [ite_apply]
    split_ifs <;> first | omega | (congr 1; omega)

/-- Witness for C1 at off = 100 (unaligned), cnt = 5, on a constant store. -/
theorem C1_rmw_preservation_witness :
    (qspi_page_rmw (fun _ => 7) (fun i => i) (fun _ => 0) 100 5).2
      = min 5 (QSPI_PAGE_SIZE - 100 % QSPI_PAGE_SIZE) :=
  (C1_rmw_preservation (fun _ => 7) (fun i => i) (fun _ => 0) 100 5
    (by decide) (by decide)).1

/-- Any nonzero result of the qspi_write chunk loop is the return value of
an actual failing chunk attempt at some committed prefix c. -/
lemma qspi_write_go_fail (step : Nat → Nat → Int × Nat) (off n : Nat) :
    ∀ fuel cnt, (qspi_write_go step off n fuel cnt).1 ≠ 0 →
      ∃ c, cnt ≤ c ∧ c < n ∧
        (step (off + c) (n - c)).1 = (qspi_write_go step off n fuel cnt).1 := by
  intro fuel
  induction fuel with
  | zero => intro cnt h; exact absurd rfl h
  | succ fuel ih =>
    intro cnt h
    unfold qspi_write_go at h ⊢
    by_cases hlt : cnt < n
    · rw [if_pos hlt] at h ⊢
      by_cases hr : (step (off + cnt) (n - cnt)).1 = 0
      · rw [if_pos hr] at h ⊢
        obtain ⟨c, hc1, hc2, hc3⟩ := ih _ h
        exact ⟨c, by omega, hc2, hc3⟩
      · rw [if_neg hr] at h ⊢
        exact ⟨cnt, le_refl _, hlt, rfl⟩
    · rw [if_neg hlt] at h
      exact absurd rfl h

/-- C2 (amended): when some chunk of a stream write fails after earlier
chunks committed, qspi_write returns ONLY the error code of the failing chunk;
the count of bytes committed before the failure is discarded, not returned
alongside the failure indication. -/
theorem C2_partial_write_error_only (step : Nat → Nat → Int × Nat)
    (flash_size off n : Nat) (h0 : n ≠ 0) (hv : is_valid_offset flash_size off)
    (hfail : (qspi_write_go step off (min n (sub64 flash_size off))
      (min n (sub64 flash_size off)) 0).1 ≠ 0) :
    ∃ c, c < min n (sub64 flash_size off) ∧
      (step (off + c) (min n (sub64 flash_size off) - c)).1
        = qspi_write step flash_size off n ∧
      qspi_write step flash_size off n ≠ 0 := by
  obtain ⟨c, _, hc2, hc3⟩ := qspi_write_go_fail step off
    (min n (sub64 flash_size off)) (min n (sub64 flash_size off)) 0 hfail
  have hmodel : qspi_write step flash_size off n
      = (qspi_write_go step off (min n (sub64 flash_size off))
        (min n (sub64 flash_size off)) 0).1 := by
    unfold qspi_write
    rw [if_neg (by simp [h0, hv])]
    dsimp only
    rw [if_pos hfail]
  exact ⟨c, hc2, by rw [hmodel]; exact hc3, by rw [hmodel]; exact hfail⟩

/-- Chunk oracle for the C2 scenario: the chunk at offset 0 succeeds and
commits 4096 bytes, every later chunk fails with -EIO (-5). -/
def stepFailAfterOne : Nat → Nat → Int × Nat :=
  fun o l => if o = 0 then (0, 4096) else (-5, l)

/-- Counterexample to C2 as stated: on a 16MB flash, writing 8192 bytes at
offset 0 where the second chunk fails after the first committed 4096 bytes,
qspi_write returns the bare error code -5 — an ssize_t carrying no committed
count — although 4096 bytes had landed. -/
theorem C2_partial_write_cex :
    qspi_write stepFailAfterOne 16777216 0 8192 = -5 ∧
    (qspi_write_go stepFailAfterOne 0 8192 8192 0).2 = 4096 ∧
    (-5 : Int) ≠ 4096 := by
  refine ⟨by decide, by decide, by decide⟩

/-- Witness for C2 (amended) on the same concrete scenario. -/
theorem C2_partial_write_error_only_witness :
    ∃ c, c < min 8192 (sub64 16777216 0) ∧
      (stepFailAfterOne (0 + c) (min 8192 (sub64 16777216 0) - c)).1
        = qspi_write stepFailAfterOne 16777216 0 8192 ∧
      qspi_write stepFailAfterOne 16777216 0 8192 ≠ 0 :=
  C2_partial_write_error_only stepFailAfterOne 16777216 0 8192
    (by decide) (by decide) (by decide)

/-- C7 (amended): qspi_read returns 0 bytes (not an error) for a zero-length
request or an offset failing the validity check; for an in-bounds offset
numerically below capacity the length is clamped to the remaining capacity
flash_size - off; but for an in-bounds offset at or beyond capacity (e.g.
one with a nonzero slave byte), the size_t difference flash_size - off wraps
below 2 ^ 64 and exceeds any request bounded by 2 ^ 64 - off, so NO clamping
occurs and the full requested length is returned. -/
theorem C7_read_clamp (flash_size off n : Nat) :
    ((n = 0 ∨ ¬ is_valid_offset flash_size off) → qspi_read flash_size off n = 0) ∧
    (n ≠ 0 → off < flash_size → flash_size < 2 ^ 64 →
      qspi_read flash_size off n = ((min n (flash_size - off) : Nat) : Int)) ∧
    (n ≠ 0 → is_valid_offset flash_size off → flash_size < off → off < 2 ^ 64 →
      n ≤ 2 ^ 64 - off → qspi_read flash_size off n = (n : Int)) := by
  refine ⟨?_, ?_, ?_⟩
  · intro h
    unfold qspi_read
    rw [if_pos h]
  · intro hn hofs hfs
    have hv : is_valid_offset flash_size off := by
      rw [is_valid_offset_iff]
      have := Nat.mod_le off (2 ^ 32)
      omega
    unfold qspi_read
    rw [if_neg (by simp [hn, hv]), sub64_of_le flash_size off (by omega) hfs]
  · intro hn hv hlt hoff hnb
    unfold qspi_read
    rw [if_neg (by simp [hn, hv])]
    have hs : n ≤ sub64 flash_size off := by
      unfold sub64
      omega
    rw [Nat.min_eq_left hs]

/-- Witness for C7 (amended): on a 4096-byte flash, read(4086, 100) (slave
byte zero) transfers exactly min(100, 10) = 10 bytes. -/
theorem C7_read_clamp_witness :
    qspi_read 4096 4086 100 = ((min 100 (4096 - 4086) : Nat) : Int) :=
  (C7_read_clamp 4096 4086 100).2.1 (by decide) (by decide) (by decide)

/-- Counterexample to C7 as stated: on a 4096-byte flash, the in-bounds
offset 2 ^ 56 + 4086 (slave byte 1, 10 bytes below the per-slave capacity)
with a 100-byte request passes the validity check, but the size_t clamp
wraps and qspi_read transfers 100 bytes, not the 10 remaining ones. -/
theorem C7_read_clamp_cex :
    is_valid_offset 4096 (2 ^ 56 + 4086) ∧
    qspi_read 4096 (2 ^ 56 + 4086) 100 = 100 ∧ (100 : Int) ≠ 10 := by
  refine ⟨by decide, by decide, by decide⟩

/-- C8 (amended): qspi_write rejects a zero-length request or an offset
failing the validity check with -ENOSPC (-28), not with a short or zero
success; for an in-bounds offset numerically below capacity a successful
write is clamped to the remaining capacity flash_size - off; but for an
in-bounds offset at or beyond capacity (nonzero slave byte) the size_t
clamp wraps and the full requested length is accepted unclamped. -/
theorem C8_write_boundary (step : Nat → Nat → Int × Nat) (flash_size off n : Nat) :
    ((n = 0 ∨ ¬ is_valid_offset flash_size off) → qspi_write step flash_size off n = -28) ∧
    (n ≠ 0 → off < flash_size → flash_size < 2 ^ 64 →
      (qspi_write_go step off (min n (flash_size - off)) (min n (flash_size - off)) 0).1 = 0 →
      qspi_write step flash_size off n = ((min n (flash_size - off) : Nat) : Int)) := by
  constructor
  · intro h
    unfold qspi_write
    rw [if_pos h]
  · intro hn hofs hfs hgo
    have hv : is_valid_offset flash_size off := by
      rw [is_valid_offset_iff]
      have := Nat.mod_le off (2 ^ 32)
      omega
    unfold qspi_write
    rw [if_neg (by simp [hn, hv])]
    dsimp only
    rw [sub64_of_le flash_size off (by omega) hfs]
    rw [if_neg (by simp [hgo])]

/-- Chunk oracle that always succeeds and consumes the whole remaining
request, for exercising the boundary logic of qspi_write alone. -/
def stepAllOk : Nat → Nat → Int × Nat := fun _ l => (0, l)

/-- Witness for C8 (amended): write(4086, 100) on a 4096-byte flash with all
chunks succeeding returns the clamped count 10; write(0, 0) is rejected
with -ENOSPC. -/
theorem C8_write_boundary_witness :
    qspi_write stepAllOk 4096 4086 100 = ((min 100 (4096 - 4086) : Nat) : Int) ∧
    qspi_write stepAllOk 4096 0 0 = -28 :=
  ⟨(C8_write_boundary stepAllOk 4096 4086 100).2 (by decide) (by decide) (by decide)
      (by decide),
   (C8_write_boundary stepAllOk 4096 0 0).1 (Or.inl rfl)⟩

/-- Counterexample to C8 as stated: the offset 2 ^ 56 + 4086 is at/beyond
the 4096-byte capacity, yet qspi_write neither rejects it with the no-space
error nor clamps it — it accepts the full 100-byte request. -/
theorem C8_write_boundary_cex :
    qspi_write stepAllOk 4096 (2 ^ 56 + 4086) 100 = 100 ∧
    (100 : Int) ≠ -28 ∧ (100 : Int) ≠ 10 := by
  refine ⟨by decide, by decide, by decide⟩

/-- C9 (amended): the slave-select register is written back to the all-ones
"none selected" value before qspi_transaction returns whenever the transmit
step succeeds (regardless of receive or drain failure); but on a FIFO-reset
failure or a slave-index validation failure the register is not written at
all, and on a transmit failure the transaction returns with the slave still
activated — no all-ones write happens on those paths. -/
theorem C9_slave_deselect (env : TransEnv) (c : Int) (len : Nat) (out : Bool) (s : Nat) :
    (env.reset_ret = 0 → c < 2 → env.tx_ret = 0 →
      (qspi_transaction env c len out s).2 = SLAVE_SELECT_NONE) ∧
    (env.reset_ret ≠ 0 → (qspi_transaction env c len out s).2 = s) ∧
    (env.reset_ret = 0 → 2 ≤ c → (qspi_transaction env c len out s).2 = s) ∧
    (env.reset_ret = 0 → c < 2 → env.tx_ret ≠ 0 →
      (qspi_transaction env c len out s).2 = qspi_activate_slave_val c) := by
  unfold qspi_transaction MAX_NUM_OF_SLAVES
  refine ⟨?_, ?_, ?_, ?_⟩
  · intro hr hc ht
    rw [if_neg (by simp [hr]), if_neg (by omega)]
    dsimp only
    rw [if_neg (by simp [ht])]
  · intro hr
    rw [if_pos hr]
  · intro hr hc
    rw [if_neg (by simp [hr]), if_pos hc]
  · intro hr hc ht
    rw [if_neg (by simp [hr]), if_neg (by omega)]
    dsimp only
    rw [if_pos ht]

/-- Witness for C9 (amended): a fully successful 2-byte transaction on slave
0 leaves the slave-select register at the all-ones value. -/
theorem C9_slave_deselect_witness :
    (qspi_transaction ⟨0, 0, 2, false⟩ 0 2 true 7).2 = SLAVE_SELECT_NONE :=
  (C9_slave_deselect ⟨0, 0, 2, false⟩ 0 2 true 7).1 rfl (by decide) rfl

/-- Counterexample to C9 as stated: when the transmit step fails with
-ETIMEDOUT (-110) on slave 0, qspi_transaction returns with the slave-select
register still holding the activation value ~BIT(0) = 0xfffffffe, not the
all-ones "none selected" value. -/
theorem C9_slave_deselect_cex :
    (qspi_transaction ⟨0, -110, 0, false⟩ 0 2 true 3).2 = 2 ^ 32 - 2 ∧
    (qspi_transaction ⟨0, -110, 0, false⟩ 0 2 true 3).2 ≠ SLAVE_SELECT_NONE := by
  refine ⟨by decide, by decide⟩

/-- C10 (amended): qspi_transaction reports success exactly when FIFO reset,
slave-index validation, transmit, and — when output is wanted — receive all
succeed; but when output is NOT wanted the qspi_rx result of the drain is
discarded, so a drain failure (RX-empty underrun, leftover bytes, or error
bits) is not reported and the transaction still returns success. -/
theorem C10_transaction_errors (env : TransEnv) (c : Int) (len : Nat) (s : Nat) :
    ((qspi_transaction env c len true s).1 = 0 ↔
      (env.reset_ret = 0 ∧ c < 2 ∧ env.tx_ret = 0 ∧ qspi_rx env len = 0)) ∧
    ((qspi_transaction env c len false s).1 = 0 ↔
      (env.reset_ret = 0 ∧ c < 2 ∧ env.tx_ret = 0)) := by
  unfold qspi_transaction MAX_NUM_OF_SLAVES
  constructor
  · constructor
    · intro h
      by_cases hr : env.reset_ret = 0
      · by_cases hc : (2 : Int) ≤ c
        · rw [if_neg (by simp [hr]), if_pos hc] at h
          dsimp only at h
          exact absurd h (by decide)
        · by_cases ht : env.tx_ret = 0
          · rw [if_neg (by simp [hr]), if_neg hc] at h
            dsimp only at h
            rw [if_neg (by simp [ht]), if_pos rfl] at h
            exact ⟨hr, by omega, ht, h⟩
          · rw [if_neg (by simp [hr]), if_neg hc] at h
            dsimp only at h
            rw [if_pos ht] at h
            exact absurd h ht
      · rw [if_pos hr] at h
        exact absurd h hr
    · intro ⟨hr, hc, ht, hrx⟩
      rw [if_neg (by simp [hr]), if_neg (by omega)]
      dsimp only
      rw [if_neg (by simp [ht]), if_pos rfl]
      exact hrx
  · constructor
    · intro h
      by_cases hr : env.reset_ret = 0
      · by_cases hc : (2 : Int) ≤ c
        · rw [if_neg (by simp [hr]), if_pos hc] at h
          dsimp only at h
          exact absurd h (by decide)
        · by_cases ht : env.tx_ret = 0
          · exact ⟨hr, by omega, ht⟩
          · rw [if_neg (by simp [hr]), if_neg hc] at h
            dsimp only at h
            rw [if_pos ht] at h
            exact absurd h ht
      · rw [if_pos hr] at h
        exact absurd h hr
    · intro ⟨hr, hc, ht⟩
      rw [if_neg (by simp [hr]), if_neg (by omega)]
      dsimp only
      rw [if_neg (by simp [ht]), if_neg (by decide)]

/-- Counterexample to C10 as stated: with output not wanted and 5 bytes left
in the RX FIFO against an expected drain of 2 (so the drain step itself
fails with -EINVAL), qspi_transaction nevertheless returns 0: the drain
failure is swallowed, and success is reported although a step failed. -/
theorem C10_transaction_errors_cex :
    qspi_rx ⟨0, 0, 5, false⟩ 2 = -22 ∧
    (qspi_transaction ⟨0, 0, 5, false⟩ 0 2 false 3).1 = 0 := by
  refine ⟨by decide, by decide⟩

end XrtQspi
